import Mathlib

/-!
Verification development for the tephra GPU abstraction layer.

Shallow embedding of three source modules:
- `src/tephra/src/descriptor.rs` — the descriptor pool allocator and scoped
  allocation session (`LinearPoolAllocator`, `Allocator`, `Pool`);
- `src/tephra/src/backend/vulkan/render.rs` — the Vulkan draw path
  (`Render::draw_indexed`, `create_pipeline`, `create_renderpass`,
  `create_framebuffer`, `vertex_format`, `vertex_input`);
- `src/tephra/src/buffer.rs` — the typestate buffer interface
  (`HostVisibleBuffer`, `BufferApi`, `ImplBuffer`).

Rust machine integers in this code never approach their bounds (pool counts,
allocation counters, resolutions), so they are embedded as `Nat`/`Int`.
The few `f32` values on the draw path (clear colors, viewport bounds, depth
bounds) are the exact values 0 and 1 and integral screen dimensions, all
exactly representable in `f32`; they are embedded as `ℚ`.
Fallible operations (panics via `expect`/`unreachable!`, lookups) are
embedded with `Option`/`Except`/explicit result types.
-/

namespace Tephra

/-! ## Descriptor pool allocator (`descriptor.rs`) -/

/-- One descriptor pool.  The pool object itself is backend-owned
(`Box<dyn PoolApi>`), not part of `src/`.  Modelled from the spec:
"a native allocation block sized for a fixed number of descriptor-set
instances"; `used` counts descriptor sets handed out since the last reset,
`capacity` is the size the pool was created with (`block_size`). -/
structure InnerPool where
  capacity : Nat
  used : Nat
deriving DecidableEq

/-- `PoolApi::create_descriptor`.  Modelled from the spec: allocating from a
pool succeeds while the pool still has a free slot and fails (backend
allocation error) once the pool's fixed capacity is exhausted. -/
def InnerPool.create_descriptor (p : InnerPool) : Option InnerPool :=
  if p.used < p.capacity then some { p with used := p.used + 1 } else none

/-- `PoolApi::reset`: all slots of the pool become reusable. -/
def InnerPool.reset_pool (p : InnerPool) : InnerPool :=
  { p with used := 0 }

/-- `LinearPoolAllocator`: a block size plus an ordered sequence of pools.
The `ctx`, `layout` and `sizes` fields only parameterize backend pool
creation and carry no allocation-relevant state, so they are omitted. -/
structure LinearPoolAllocator where
  block_size : Nat
  pools : List InnerPool
deriving DecidableEq

/-- `LinearPoolAllocator::new::<T>`: zero pools, block size 50. -/
def LinearPoolAllocator.new : LinearPoolAllocator :=
  { block_size := 50, pools := [] }

/-- `LinearPoolAllocator::allocate_additional_pool`: append one pool sized
for `block_size` descriptor sets. -/
def LinearPoolAllocator.allocate_additional_pool (a : LinearPoolAllocator) : LinearPoolAllocator :=
  { a with pools := a.pools ++ [{ capacity := a.block_size, used := 0 }] }

/-- `LinearPoolAllocator::reset`: reset every owned pool. -/
def LinearPoolAllocator.reset (a : LinearPoolAllocator) : LinearPoolAllocator :=
  { a with pools := a.pools.map InnerPool.reset_pool }

/-- `Allocator<'pool, T>`: the scoped allocation session.  It holds the
(locked) `LinearPoolAllocator` and the session-local allocation counter. -/
structure Allocator where
  allocator : LinearPoolAllocator
  current_allocations : Nat
deriving DecidableEq

/-- The "if we don't have enough space, allocate a new pool" step of
`Allocator::allocate`: the allocator after the conditional growth. -/
def Allocator.grown (s : Allocator) : LinearPoolAllocator :=
  if s.allocator.pools.length ≤ s.current_allocations / s.allocator.block_size then
    s.allocator.allocate_additional_pool
  else
    s.allocator

/-- `Allocator::allocate`.  Computes `allocator_index =
current_allocations / block_size`; grows by one pool if that index does not
exist yet; fetches a descriptor from `pools[allocator_index]`; increments the
counter.  Returns the updated session together with the index of the pool
that served the allocation (the provenance of the returned descriptor);
`none` embeds a panic / backend allocation failure. -/
def Allocator.allocate (s : Allocator) : Option (Allocator × Nat) :=
  ((s.grown).pools[s.current_allocations / s.allocator.block_size]?).bind fun p =>
    (p.create_descriptor).map fun p2 =>
      ({ allocator :=
          { block_size := s.grown.block_size,
            pools := (s.grown).pools.set (s.current_allocations / s.allocator.block_size) p2 },
         current_allocations := s.current_allocations + 1 },
       s.current_allocations / s.allocator.block_size)

/-- `Pool::allocate`: acquiring a session constructs an `Allocator` with
`current_allocations: 0` over the locked `LinearPoolAllocator` (the lock
acquisition itself is modelled by the transition system below). -/
def newSession (a : LinearPoolAllocator) : Allocator :=
  { allocator := a, current_allocations := 0 }

/-- `k` successive calls to the session's `allocate`. -/
def allocIter : Nat → Allocator → Option Allocator
  | 0, s => some s
  | k + 1, s => (allocIter k s).bind fun s2 => (s2.allocate).map Prod.fst

/-- Closed form of the pool at position `j` after `k` allocations with block
size `B`, starting from freshly reset pools. -/
def poolAt (B k j : Nat) : InnerPool :=
  { capacity := B, used := min B (k - j * B) }

/-- Closed form of the pool list after `k` allocations with block size `B`,
starting from `P` freshly reset pools. -/
def poolsAfter (B P k : Nat) : List InnerPool :=
  (List.range (max P ((k + B - 1) / B))).map (poolAt B k)

/-- Closed form of the whole session state after `k` allocations. -/
def stateAfter (B P k : Nat) : Allocator :=
  { allocator := { block_size := B, pools := poolsAfter B P k },
    current_allocations := k }

/-- An allocator with block size `B` and `P` freshly reset pools (`P = 0`
is `LinearPoolAllocator::new` with block size `B`). -/
def freshAllocator (B P : Nat) : LinearPoolAllocator :=
  { block_size := B, pools := List.replicate P { capacity := B, used := 0 } }

/-- A concrete allocator with two partially used pools of block size 2,
used to instantiate the reset/reuse and session-end theorems. -/
def exampleUsedAllocator : LinearPoolAllocator :=
  { block_size := 2,
    pools := [{ capacity := 2, used := 2 }, { capacity := 2, used := 1 }] }

/-! ## Session / lock transition system (`Pool`, `MutexGuard`, `Drop`)

`Pool::allocate` locks the `parking_lot::Mutex` around the
`LinearPoolAllocator` and yields the session; dropping the session first
runs `Drop for Allocator` (which resets the allocator) and then releases the
`MutexGuard`.  The transition system embeds exactly these rules; the
`sessionEnd` event carries an `unwind` flag because Rust runs the same drop
glue on normal scope exit and on panic unwind. -/

/-- Global state of one `Pool<T>`: who (if anyone) holds the mutex, the
shared `LinearPoolAllocator` behind it, and the live session's counter. -/
structure SysState where
  holder : Option Nat
  alloc : LinearPoolAllocator
  counter : Nat
deriving DecidableEq

/-- Events of the session state machine. -/
inductive Ev
  | acquire (id : Nat)
  | allocEv
  | sessionEnd (id : Nat) (unwind : Bool)
deriving DecidableEq

/-- Small-step semantics of the session lifecycle:
`acquire` is `Pool::allocate` (only enabled while the mutex is free; the new
session's counter starts at 0); `allocEv` is `Allocator::allocate`;
`sessionEnd` is the drop glue of `Allocator` — `Drop::drop` resets the
allocator and the `MutexGuard` releases the lock — which Rust runs on every
scope exit, normal (`unwind = false`) or panic unwind (`unwind = true`). -/
inductive Step : SysState → Ev → SysState → Prop
  | acquire (s : SysState) (id : Nat) :
      s.holder = none →
      Step s (Ev.acquire id) { holder := some id, alloc := s.alloc, counter := 0 }
  | allocStep (s : SysState) (id : Nat) (s2 : Allocator) (idx : Nat) :
      s.holder = some id →
      Allocator.allocate { allocator := s.alloc, current_allocations := s.counter }
        = some (s2, idx) →
      Step s Ev.allocEv
        { holder := some id, alloc := s2.allocator, counter := s2.current_allocations }
  | sessionEnd (s : SysState) (id : Nat) (unwind : Bool) :
      s.holder = some id →
      Step s (Ev.sessionEnd id unwind)
        { holder := none, alloc := s.alloc.reset, counter := 0 }

/-- Reflexive-transitive closure of `Step`, recording the event trace. -/
inductive Trace : SysState → List Ev → SysState → Prop
  | nil (s : SysState) : Trace s [] s
  | cons {s s2 s3 : SysState} {e : Ev} {evs : List Ev} :
      Step s e s2 → Trace s2 evs s3 → Trace s (e :: evs) s3

/-- A concrete mid-session state (session 0 live, three allocations done),
used to instantiate the session-lifecycle theorems. -/
def exampleEndStart : SysState :=
  { holder := some 0, alloc := exampleUsedAllocator, counter := 3 }

/-! ## Vulkan render path (`backend/vulkan/render.rs`) -/

/-- The Vulkan formats this code produces. -/
inductive VkFormat
  | R32_SFLOAT
  | R32G32_SFLOAT
  | R32G32B32_SFLOAT
  | R32G32B32A32_SFLOAT
  | R8G8B8A8_UNORM
  | B8G8R8A8_UNORM
  | D16_UNORM
deriving DecidableEq

/-- `renderpass::VertexType` (declared outside `src/`; its shape is fixed by
the match in `vertex_format`): a 32-bit float vector with a component
count. -/
inductive VertexType
  | F32 (size : Nat)
deriving DecidableEq

/-- `renderpass::VertexInputData` (declared outside `src/`; its fields are
fixed by their uses in `vertex_input`). -/
structure VertexInputData where
  location : Nat
  binding : Nat
  offset : Nat
  vertex_type : VertexType
deriving DecidableEq

/-- `vk::VertexInputAttributeDescription`. -/
structure VertexInputAttributeDescription where
  location : Nat
  binding : Nat
  offset : Nat
  format : VkFormat
deriving DecidableEq

/-- `vertex_format`: component width to attribute format; the source's
`unreachable!()` on any other width is embedded as `none`. -/
def vertex_format : VertexType → Option VkFormat
  | VertexType.F32 1 => some VkFormat.R32_SFLOAT
  | VertexType.F32 2 => some VkFormat.R32G32_SFLOAT
  | VertexType.F32 3 => some VkFormat.R32G32B32_SFLOAT
  | VertexType.F32 4 => some VkFormat.R32G32B32A32_SFLOAT
  | VertexType.F32 _ => none

/-- `vertex_input`: map each entry to an attribute description, carrying
location, binding and offset through and formatting via `vertex_format`;
`none` when any entry hits the `unreachable!()` width. -/
def vertex_input : List VertexInputData → Option (List VertexInputAttributeDescription)
  | [] => some []
  | input :: rest =>
    match vertex_format input.vertex_type with
    | none => none
    | some f =>
      (vertex_input rest).map fun out =>
        { location := input.location, binding := input.binding,
          offset := input.offset, format := f } :: out

/-- `vk::Extent2D`. -/
structure Extent2D where
  width : Nat
  height : Nat
deriving DecidableEq

/-- The Vulkan `Context` fields the draw path reads.  `surface_resolution`
is read directly by `render.rs`; `surface_format` is Modelled from the spec:
the presentation (swapchain surface) format lives in the context set up
outside `src/`, and the spec's render-pass step refers to it ("color format
matching presentation format"). -/
structure VkContext where
  surface_resolution : Extent2D
  surface_format : VkFormat
deriving DecidableEq

/-- An already-resolved target image as the draw path sees it: pixel format,
dimensions and a native view handle. -/
structure Image where
  format : VkFormat
  width : Nat
  height : Nat
  image_view : Nat
deriving DecidableEq

inductive ImageLayout
  | UNDEFINED
  | COLOR_ATTACHMENT_OPTIMAL
  | DEPTH_STENCIL_ATTACHMENT_OPTIMAL
deriving DecidableEq

inductive LoadOp
  | CLEAR
  | DONT_CARE_LOAD
deriving DecidableEq

inductive StoreOp
  | STORE
  | DONT_CARE_STORE
deriving DecidableEq

inductive PipelineStageFlag
  | COLOR_ATTACHMENT_OUTPUT
  | BOTTOM_OF_PIPE
deriving DecidableEq

inductive AccessFlag
  | COLOR_ATTACHMENT_READ
  | COLOR_ATTACHMENT_WRITE
deriving DecidableEq

/-- `vk::AttachmentDescription`. -/
structure AttachmentDescription where
  format : VkFormat
  samples : Nat
  load_op : LoadOp
  store_op : StoreOp
  stencil_load_op : LoadOp
  stencil_store_op : StoreOp
  initial_layout : ImageLayout
  final_layout : ImageLayout
deriving DecidableEq

/-- `vk::AttachmentReference`. -/
structure AttachmentReference where
  attachment : Nat
  layout : ImageLayout
deriving DecidableEq

/-- `vk::SubpassDescription` (the fields this code sets to non-defaults). -/
structure SubpassDescription where
  color_attachments : List AttachmentReference
  depth_stencil_attachment : Option AttachmentReference
deriving DecidableEq

/-- A subpass index or `vk::SUBPASS_EXTERNAL`. -/
inductive SubpassRef
  | external
  | index (i : Nat)
deriving DecidableEq

/-- `vk::SubpassDependency`. -/
structure SubpassDependency where
  src_subpass : SubpassRef
  dst_subpass : SubpassRef
  src_stage_mask : List PipelineStageFlag
  dst_stage_mask : List PipelineStageFlag
  src_access_mask : List AccessFlag
  dst_access_mask : List AccessFlag
deriving DecidableEq

/-- A created render pass, as the description it was created from. -/
structure RenderPassDesc where
  attachments : List AttachmentDescription
  subpasses : List SubpassDescription
  dependencies : List SubpassDependency
deriving DecidableEq

/-- `create_renderpass`: the attachment array, subpass and dependency are
all literals in the source; the image list is only printed (`println!`) and
the context is only used for the device call, so the result is a constant:
color attachment hardcoded to `R8G8B8A8_UNORM`, depth to `D16_UNORM`, one
subpass referencing both, one dependency from `SUBPASS_EXTERNAL` to subpass
0 on the color-attachment-output stage.  The Rust `Default::default()` for
`dst_subpass` is subpass index 0 and for `src_access_mask` is the empty
flag set. -/
def create_renderpass (_ctx : VkContext) (_image_resources : List Image) : RenderPassDesc :=
  { attachments :=
      [ { format := VkFormat.R8G8B8A8_UNORM,
          samples := 1,
          load_op := LoadOp.CLEAR,
          store_op := StoreOp.STORE,
          stencil_load_op := LoadOp.DONT_CARE_LOAD,
          stencil_store_op := StoreOp.DONT_CARE_STORE,
          initial_layout := ImageLayout.UNDEFINED,
          final_layout := ImageLayout.COLOR_ATTACHMENT_OPTIMAL },
        { format := VkFormat.D16_UNORM,
          samples := 1,
          load_op := LoadOp.CLEAR,
          store_op := StoreOp.DONT_CARE_STORE,
          stencil_load_op := LoadOp.DONT_CARE_LOAD,
          stencil_store_op := StoreOp.DONT_CARE_STORE,
          initial_layout := ImageLayout.DEPTH_STENCIL_ATTACHMENT_OPTIMAL,
          final_layout := ImageLayout.DEPTH_STENCIL_ATTACHMENT_OPTIMAL } ],
    subpasses :=
      [ { color_attachments := [{ attachment := 0, layout := ImageLayout.COLOR_ATTACHMENT_OPTIMAL }],
          depth_stencil_attachment :=
            some { attachment := 1, layout := ImageLayout.DEPTH_STENCIL_ATTACHMENT_OPTIMAL } } ],
    dependencies :=
      [ { src_subpass := SubpassRef.external,
          dst_subpass := SubpassRef.index 0,
          src_stage_mask := [PipelineStageFlag.COLOR_ATTACHMENT_OUTPUT],
          dst_stage_mask := [PipelineStageFlag.COLOR_ATTACHMENT_OUTPUT],
          src_access_mask := [],
          dst_access_mask := [AccessFlag.COLOR_ATTACHMENT_READ, AccessFlag.COLOR_ATTACHMENT_WRITE] } ] }

/-- A created framebuffer: render pass, the target images' view handles,
and the active surface resolution. -/
structure Framebuffer where
  render_pass : RenderPassDesc
  attachments : List Nat
  width : Nat
  height : Nat
deriving DecidableEq

/-- `create_framebuffer`: bind the render pass to the images' view handles;
dimensions from the surface resolution. -/
def create_framebuffer (ctx : VkContext) (renderpass : RenderPassDesc)
    (image_resources : List Image) : Framebuffer :=
  { render_pass := renderpass,
    attachments := image_resources.map Image.image_view,
    width := ctx.surface_resolution.width,
    height := ctx.surface_resolution.height }

/-- `vulkan::Render`: context plus the retained render pass and
framebuffer. -/
structure Render where
  ctx : VkContext
  framebuffer : Framebuffer
  renderpass : RenderPassDesc
deriving DecidableEq

/-- `CreateRender::create_render for Context`. -/
def create_render (ctx : VkContext) (images : List Image) : Render :=
  let renderpass := create_renderpass ctx images
  let framebuffer := create_framebuffer ctx renderpass images
  { renderpass := renderpass, framebuffer := framebuffer, ctx := ctx }

/-- A generic shader-module handle, carrying the backend identity that the
`downcast::<Vulkan>()` checks at runtime.  Modelled from the spec: generic
handles carry a dynamic type identity; `other` stands for a handle created
by any backend other than the Vulkan backend executing the draw. -/
inductive ShaderModule
  | vulkan (shader_module : Nat)
  | other (tag : Nat)
deriving DecidableEq

/-- `shader.downcast::<Vulkan>()`: succeeds exactly on Vulkan handles. -/
def ShaderModule.downcastVulkan : ShaderModule → Option Nat
  | ShaderModule.vulkan m => some m
  | ShaderModule.other _ => none

/-- `pipeline::PipelineState` (declared outside `src/`).  Modelled from the
spec: a pair of optional shader stage handles, both mandatory for this draw
path. -/
structure PipelineState where
  vertex_shader : Option ShaderModule
  fragment_shader : Option ShaderModule
deriving DecidableEq

/-- A generic `&BufferApi` trait object as `draw_indexed` receives it;
`downcast_ref::<BufferData>` succeeds exactly on Vulkan-created buffers.
`other` stands for a buffer created by a different backend. -/
inductive AnyBuffer
  | vulkan (buffer : Nat)
  | other (tag : Nat)
deriving DecidableEq

/-- `buffer.downcast_ref::<BufferData>()`. -/
def AnyBuffer.downcastVulkan : AnyBuffer → Option Nat
  | AnyBuffer.vulkan b => some b
  | AnyBuffer.other _ => none

inductive ShaderStageFlag
  | VERTEX
  | FRAGMENT
deriving DecidableEq

/-- One `vk::PipelineShaderStageCreateInfo` (module + stage). -/
structure ShaderStageInfo where
  shader_module : Nat
  stage : ShaderStageFlag
deriving DecidableEq

/-- `vk::VertexInputBindingDescription` (input rate is always per-vertex
here). -/
structure VertexInputBindingDescription where
  binding : Nat
  stride : Nat
deriving DecidableEq

inductive PrimitiveTopology
  | TRIANGLE_LIST
deriving DecidableEq

inductive CullMode
  | NONE_CULL
deriving DecidableEq

inductive FrontFace
  | COUNTER_CLOCKWISE
deriving DecidableEq

inductive CompareOp
  | LESS_OR_EQUAL
deriving DecidableEq

inductive DynState
  | VIEWPORT
  | SCISSOR
deriving DecidableEq

/-- The graphics pipeline object `create_pipeline` builds: shader stages,
vertex input, and the fixed-function state the source sets. -/
structure GraphicsPipelineDesc where
  stages : List ShaderStageInfo
  vertex_bindings : List VertexInputBindingDescription
  vertex_attributes : List VertexInputAttributeDescription
  topology : PrimitiveTopology
  cull_mode : CullMode
  front_face : FrontFace
  depth_test_enable : Bool
  depth_write_enable : Bool
  depth_compare_op : CompareOp
  blend_enable : Bool
  dynamic_states : List DynState
  render_pass : RenderPassDesc
deriving DecidableEq

/-- `create_pipeline`: unwrap the vertex shader (`expect("vertex")`),
downcast it to Vulkan, unwrap the fragment shader (the source's expect
message is again `"vertex"`), downcast it, derive the vertex attribute
descriptions (whose `unreachable!()` is a panic), and assemble the pipeline
with the source's fixed-function literals.  `Except.error` carries the
panic message. -/
def create_pipeline (_ctx : VkContext) (state : PipelineState) (stride : Nat)
    (vi : List VertexInputData) (renderpass : RenderPassDesc) :
    Except String GraphicsPipelineDesc :=
  match state.vertex_shader with
  | none => Except.error "vertex"
  | some vs =>
    match vs.downcastVulkan with
    | none => Except.error "downcast"
    | some vk_vertex =>
      match state.fragment_shader with
      | none => Except.error "vertex"
      | some fs =>
        match fs.downcastVulkan with
        | none => Except.error "downcast"
        | some vk_fragment =>
          match vertex_input vi with
          | none => Except.error "unreachable"
          | some attrs =>
            Except.ok
              { stages := [ { shader_module := vk_vertex, stage := ShaderStageFlag.VERTEX },
                            { shader_module := vk_fragment, stage := ShaderStageFlag.FRAGMENT } ],
                vertex_bindings := [{ binding := 0, stride := stride }],
                vertex_attributes := attrs,
                topology := PrimitiveTopology.TRIANGLE_LIST,
                cull_mode := CullMode.NONE_CULL,
                front_face := FrontFace.COUNTER_CLOCKWISE,
                depth_test_enable := true,
                depth_write_enable := true,
                depth_compare_op := CompareOp.LESS_OR_EQUAL,
                blend_enable := false,
                dynamic_states := [DynState.VIEWPORT, DynState.SCISSOR],
                render_pass := renderpass }

/-- `vk::Viewport` (f32 fields embedded as exact rationals). -/
structure Viewport where
  x : ℚ
  y : ℚ
  width : ℚ
  height : ℚ
  min_depth : ℚ
  max_depth : ℚ
deriving DecidableEq

/-- `vk::Offset2D`. -/
structure Offset2D where
  x : Int
  y : Int
deriving DecidableEq

/-- `vk::Rect2D`. -/
structure Rect2D where
  offset : Offset2D
  extent : Extent2D
deriving DecidableEq

/-- `vk::ClearValue`. -/
inductive ClearValue
  | color (r g b a : ℚ)
  | depthStencil (depth : ℚ) (stencil : Nat)
deriving DecidableEq

inductive IndexType
  | UINT32
deriving DecidableEq

/-- One recorded Vulkan command, as issued inside `CommandBuffer::record`. -/
inductive Cmd
  | beginRenderPass (render_pass : RenderPassDesc) (framebuffer : Framebuffer)
      (render_area : Rect2D) (clear_values : List ClearValue)
  | bindPipeline (pipeline : GraphicsPipelineDesc)
  | setViewport (first_viewport : Nat) (viewports : List Viewport)
  | setScissor (first_scissor : Nat) (scissors : List Rect2D)
  | bindVertexBuffers (first_binding : Nat) (buffers : List Nat) (offsets : List Nat)
  | bindIndexBuffer (buffer : Nat) (offset : Nat) (index_type : IndexType)
  | drawIndexed (index_count : Nat) (instance_count : Nat) (first_index : Nat)
      (vertex_offset : Int) (first_instance : Nat)
  | endRenderPass
deriving DecidableEq

/-- The single queue submission `draw_indexed` issues: one wait-stage mask
literal and — per the source's FIXME — no wait or signal semaphores. -/
structure Submission where
  wait_mask : List PipelineStageFlag
  wait_semaphores : List Nat
  signal_semaphores : List Nat
deriving DecidableEq

/-- Modelled from the spec: the typed-failure taxonomy of §7 (allocation /
mapping / backend-mismatch errors surfaced as typed results).  The Rust
`draw_indexed` returns `()`, so the embedded code never produces a value of
this type; it exists to state what "surfaced as a typed failure" would
mean. -/
inductive RenderError
  | backendMismatch
deriving DecidableEq

/-- Outcome of `Render::draw_indexed`: either the recorded command sequence
plus its queue submission, a typed error returned to the caller, or a fatal
panic (`expect` / `unreachable!`), which records and submits nothing. -/
inductive DrawResult
  | ok (commands : List Cmd) (submission : Submission)
  | typedError (e : RenderError)
  | panicked (msg : String)
deriving DecidableEq

/-- `true` exactly on the fatal-panic outcome. -/
def DrawResult.isPanicked : DrawResult → Bool
  | DrawResult.panicked _ => true
  | _ => false

/-- `true` exactly on the typed-failure outcome. -/
def DrawResult.isTypedError : DrawResult → Bool
  | DrawResult.typedError _ => true
  | _ => false

/-- The commands a draw outcome recorded (`none` if it never recorded). -/
def DrawResult.recordedCommands : DrawResult → Option (List Cmd)
  | DrawResult.ok cmds _ => some cmds
  | _ => none

/-- The queue submissions a draw outcome performed. -/
def DrawResult.submissions : DrawResult → List Submission
  | DrawResult.ok _ sub => [sub]
  | _ => []

/-- `Render::draw_indexed`, in source order: downcast the vertex buffer
(`expect("backend")`), downcast the index buffer (`expect("backend")`),
build the pipeline, then record the command sequence — begin render pass
over the full surface resolution with clear values `[0,0,0,0]` color and
`1.0/0` depth-stencil, bind pipeline, set viewport and scissor to the full
resolution, bind vertex buffer at binding 0 offset 0, bind index buffer
with 32-bit indices, `cmd_draw_indexed(len, 1, 0, 0, 1)`, end render pass —
and submit it waiting on and signaling no semaphores. -/
def Render.draw_indexed (r : Render) (state : PipelineState) (stride : Nat)
    (vi : List VertexInputData) (vertex_buffer index_buffer : AnyBuffer)
    (len : Nat) : DrawResult :=
  match vertex_buffer.downcastVulkan with
  | none => DrawResult.panicked "backend"
  | some vk_vertex_buffer =>
    match index_buffer.downcastVulkan with
    | none => DrawResult.panicked "backend"
    | some vk_index_buffer =>
      match create_pipeline r.ctx state stride vi r.renderpass with
      | Except.error msg => DrawResult.panicked msg
      | Except.ok pipeline =>
        let res := r.ctx.surface_resolution
        let viewports : List Viewport :=
          [ { x := 0, y := 0, width := (res.width : ℚ), height := (res.height : ℚ),
              min_depth := 0, max_depth := 1 } ]
        let scissors : List Rect2D := [{ offset := { x := 0, y := 0 }, extent := res }]
        let clear_values : List ClearValue :=
          [ClearValue.color 0 0 0 0, ClearValue.depthStencil 1 0]
        DrawResult.ok
          [ Cmd.beginRenderPass r.renderpass r.framebuffer
              { offset := { x := 0, y := 0 }, extent := res } clear_values,
            Cmd.bindPipeline pipeline,
            Cmd.setViewport 0 viewports,
            Cmd.setScissor 0 scissors,
            Cmd.bindVertexBuffers 0 [vk_vertex_buffer] [0],
            Cmd.bindIndexBuffer vk_index_buffer 0 IndexType.UINT32,
            Cmd.drawIndexed len 1 0 0 1,
            Cmd.endRenderPass ]
          { wait_mask := [PipelineStageFlag.BOTTOM_OF_PIPE],
            wait_semaphores := [], signal_semaphores := [] }

/-- The command sequence exactly as the specification's step 5 words it
("issue one indexed draw call (`index_count` indices, 1 instance, zero
offsets)"): identical to the recorded sequence except that all three draw
offsets — first index, vertex offset and first instance — are zero.  Kept
separate so the recorded sequence can be compared against it. -/
def spec_command_sequence (r : Render) (pipeline : GraphicsPipelineDesc)
    (vk_vertex_buffer vk_index_buffer : Nat) (len : Nat) : List Cmd :=
  let res := r.ctx.surface_resolution
  [ Cmd.beginRenderPass r.renderpass r.framebuffer
      { offset := { x := 0, y := 0 }, extent := res }
      [ClearValue.color 0 0 0 0, ClearValue.depthStencil 1 0],
    Cmd.bindPipeline pipeline,
    Cmd.setViewport 0
      [ { x := 0, y := 0, width := (res.width : ℚ), height := (res.height : ℚ),
          min_depth := 0, max_depth := 1 } ],
    Cmd.setScissor 0 [{ offset := { x := 0, y := 0 }, extent := res }],
    Cmd.bindVertexBuffers 0 [vk_vertex_buffer] [0],
    Cmd.bindIndexBuffer vk_index_buffer 0 IndexType.UINT32,
    Cmd.drawIndexed len 1 0 0 0,
    Cmd.endRenderPass ]

/-! ## Buffer typestate module (`buffer.rs`) -/

/-- `pub enum HostVisible {}` — an uninhabited marker type. -/
inductive HostVisible : Type

/-- `pub enum DeviceLocal {}` — an uninhabited marker type. -/
inductive DeviceLocal : Type

/-- `BufferUsage` bitflags. -/
inductive BufferUsage
  | Vertex
  | Index
  | Uniform
deriving DecidableEq

/-- Modelled from the spec: `errors::BufferError` (the errors module is not
under `src/`); `from_slice` "fails with an allocation error if the backend
cannot satisfy the size/usage combination". -/
inductive BufferError
  | allocation
deriving DecidableEq

/-- `ImplBuffer<T, Property, Backend>`: a native buffer handle plus the
usage-flag set, with the element type and locality marker carried as
phantom type parameters. -/
structure ImplBuffer (T : Type) (Property : Type) where
  buffer : Nat
  usage : List BufferUsage
deriving DecidableEq

/-- The context handle `from_slice` receives (opaque here). -/
structure ContextHandle where
  device : Nat
deriving DecidableEq

/-- The `HostVisibleBuffer` trait surface for `from_slice`: it returns
`Result<Self, BufferError>` — creation can surface a typed allocation
failure. -/
structure HostVisibleBufferApi (T : Type) where
  from_slice : ContextHandle → List BufferUsage → List T →
    Except BufferError (ImplBuffer T HostVisible)

/-- The `BufferApi` trait surface: `copy_to_device_local(&self) ->
ImplBuffer<T, DeviceLocal, Backend>` — it consumes the source by shared
reference (a pure function of it here) and returns the device-local buffer
directly, with no error variant in the return type. -/
structure BufferApiImpl (T : Type) where
  copy_to_device_local : ImplBuffer T HostVisible → ImplBuffer T DeviceLocal

/-! ## Concrete instances used to instantiate the draw-path theorems -/

/-- A concrete context: 800×600 surface whose presentation format is
`B8G8R8A8_UNORM` (a common swapchain format, distinct from the render
pass's hardcoded color format). -/
def ctx0 : VkContext :=
  { surface_resolution := { width := 800, height := 600 },
    surface_format := VkFormat.B8G8R8A8_UNORM }

/-- Concrete resolved target images (one color, one depth). -/
def images0 : List Image :=
  [ { format := VkFormat.B8G8R8A8_UNORM, width := 800, height := 600, image_view := 11 },
    { format := VkFormat.D16_UNORM, width := 800, height := 600, image_view := 12 } ]

/-- The `Render` object built over `ctx0` and `images0`. -/
def r0 : Render := create_render ctx0 images0

/-- A pipeline state with both shader stages present (Vulkan handles). -/
def state0 : PipelineState :=
  { vertex_shader := some (ShaderModule.vulkan 1),
    fragment_shader := some (ShaderModule.vulkan 2) }

/-- A pipeline state lacking the fragment shader. -/
def state_no_fragment : PipelineState :=
  { vertex_shader := some (ShaderModule.vulkan 1), fragment_shader := none }

/-- The pipeline `create_pipeline` assembles once both shaders have been
unwrapped and downcast to Vulkan modules `vkv`/`vkf` and the attributes
derived: the source's fixed-function literals. -/
def built_pipeline (vkv vkf stride : Nat) (attrs : List VertexInputAttributeDescription)
    (renderpass : RenderPassDesc) : GraphicsPipelineDesc :=
  { stages := [ { shader_module := vkv, stage := ShaderStageFlag.VERTEX },
                { shader_module := vkf, stage := ShaderStageFlag.FRAGMENT } ],
    vertex_bindings := [{ binding := 0, stride := stride }],
    vertex_attributes := attrs,
    topology := PrimitiveTopology.TRIANGLE_LIST,
    cull_mode := CullMode.NONE_CULL,
    front_face := FrontFace.COUNTER_CLOCKWISE,
    depth_test_enable := true,
    depth_write_enable := true,
    depth_compare_op := CompareOp.LESS_OR_EQUAL,
    blend_enable := false,
    dynamic_states := [DynState.VIEWPORT, DynState.SCISSOR],
    render_pass := renderpass }

/-- The command sequence `draw_indexed` actually records (note
`first_instance = 1` in the draw call, from
`cmd_draw_indexed(cb, len, 1, 0, 0, 1)`). -/
def recorded_command_sequence (r : Render) (pipeline : GraphicsPipelineDesc)
    (vk_vertex_buffer vk_index_buffer len : Nat) : List Cmd :=
  let res := r.ctx.surface_resolution
  [ Cmd.beginRenderPass r.renderpass r.framebuffer
      { offset := { x := 0, y := 0 }, extent := res }
      [ClearValue.color 0 0 0 0, ClearValue.depthStencil 1 0],
    Cmd.bindPipeline pipeline,
    Cmd.setViewport 0
      [ { x := 0, y := 0, width := (res.width : ℚ), height := (res.height : ℚ),
          min_depth := 0, max_depth := 1 } ],
    Cmd.setScissor 0 [{ offset := { x := 0, y := 0 }, extent := res }],
    Cmd.bindVertexBuffers 0 [vk_vertex_buffer] [0],
    Cmd.bindIndexBuffer vk_index_buffer 0 IndexType.UINT32,
    Cmd.drawIndexed len 1 0 0 1,
    Cmd.endRenderPass ]

/-- The queue submission `draw_indexed` performs. -/
def draw_submission : Submission :=
  { wait_mask := [PipelineStageFlag.BOTTOM_OF_PIPE],
    wait_semaphores := [], signal_semaphores := [] }

/-- A concrete vertex-input list with a width-2 attribute. -/
def exampleVertexInputs : List VertexInputData :=
  [{ location := 8, binding := 0, offset := 12, vertex_type := VertexType.F32 2 }]

/-- The attribute descriptions `vertex_input` derives from
`exampleVertexInputs`. -/
def exampleVertexAttributes : List VertexInputAttributeDescription :=
  [{ location := 8, binding := 0, offset := 12, format := VkFormat.R32G32_SFLOAT }]

/-! ## Lemmas: allocator growth -/

theorem poolsAfter_length (B P k : Nat) :
    (poolsAfter B P k).length = max P ((k + B - 1) / B) := by
  simp [poolsAfter]

theorem range_map_const {α : Type} (c : α) (n : Nat) :
    (List.range n).map (fun _ => c) = List.replicate n c := by
  induction n with
  | zero => rfl
  | succ m ih =>
    rw [List.range_succ, List.map_append, ih, List.replicate_succ']
    rfl

theorem poolsAfter_zero (B P : Nat) (hB : 0 < B) :
    poolsAfter B P 0 = List.replicate P { capacity := B, used := 0 } := by
  unfold poolsAfter
  have h0 : (0 + B - 1) / B = 0 := Nat.div_eq_of_lt (by omega)
  rw [h0, Nat.max_eq_left (Nat.zero_le P)]
  have hfun : (poolAt B 0) = fun _ : Nat => ({ capacity := B, used := 0 } : InnerPool) := by
    funext j
    simp [poolAt, Nat.zero_sub]
  rw [hfun, range_map_const]

theorem set_range_map {α : Type} (f g : Nat → α) (L i : Nat) (v : α) (_hi : i < L)
    (hfg : ∀ j, j < L → j ≠ i → g j = f j) (hv : g i = v) :
    ((List.range L).map f).set i v = (List.range L).map g := by
  apply List.ext_getElem
  · simp
  · intro n h1 h2
    simp only [List.length_set, List.length_map, List.length_range] at h1 h2
    have hn : n < ((List.range L).map f).length := by simpa using h2
    rw [List.getElem_set]
    by_cases hcase : i = n
    · subst hcase
      simp [hv.symm]
    · rw [if_neg hcase]
      have hgn : g n = f n := hfg n h2 (fun h => hcase h.symm)
      simp [hgn]

theorem poolAt_lt (B k j : Nat) (hB : 0 < B) (hj : (j + 1) * B ≤ k) :
    poolAt B k j = { capacity := B, used := B } := by
  unfold poolAt
  have hexp : (j + 1) * B = j * B + B := Nat.succ_mul j B
  congr 1
  omega

theorem poolAt_ge (B k j : Nat) (hj : k ≤ j * B) :
    poolAt B k j = { capacity := B, used := 0 } := by
  unfold poolAt
  congr 1
  omega

theorem allocate_closed (B P k : Nat) (hB : 0 < B) :
    (stateAfter B P k).allocate = some (stateAfter B P (k + 1), k / B) := by
  have hmod := Nat.mod_add_div k B
  have hmodlt : k % B < B := Nat.mod_lt _ hB
  have hmul : (k / B) * B = B * (k / B) := Nat.mul_comm _ _
  have hceil_ge : k / B ≤ (k + B - 1) / B := Nat.div_le_div_right (by omega)
  have hceil_le : (k + B - 1) / B ≤ k / B + 1 := by
    have h1 : (k + B - 1) / B ≤ (k + B) / B := Nat.div_le_div_right (by omega)
    have h2 : (k + B) / B = k / B + 1 := Nat.add_div_right k hB
    omega
  have hsucc : (k + 1 + B - 1) / B = k / B + 1 := by
    have h1 : k + 1 + B - 1 = k + B := by omega
    rw [h1]
    exact Nat.add_div_right k hB
  have hcur : (stateAfter B P k).current_allocations = k := rfl
  have hblock : (stateAfter B P k).allocator.block_size = B := rfl
  have hpoolsEq : (stateAfter B P k).allocator.pools = poolsAfter B P k := rfl
  by_cases hcase : max P ((k + B - 1) / B) ≤ k / B
  · -- the required pool index does not exist yet: grow by one pool
    have hL : max P ((k + B - 1) / B) = k / B := by omega
    have hP : P ≤ k / B := by omega
    have hceq : (k + B - 1) / B = k / B := by omega
    have hmodc := Nat.mod_add_div (k + B - 1) B
    have hmodclt : (k + B - 1) % B < B := Nat.mod_lt _ hB
    have hmod0 : k % B = 0 := by
      rw [hceq] at hmodc
      omega
    have hkeq : k = (k / B) * B := by omega
    have hgrown : (stateAfter B P k).grown
        = { block_size := B, pools := (List.range (k / B + 1)).map (poolAt B k) } := by
      unfold Allocator.grown
      rw [hcur, hblock, hpoolsEq, poolsAfter_length, if_pos hcase]
      unfold LinearPoolAllocator.allocate_additional_pool
      rw [hpoolsEq, hblock]
      congr 1
      rw [List.range_succ, List.map_append]
      unfold poolsAfter
      rw [hL]
      congr 1
      simp only [List.map_cons, List.map_nil]
      rw [poolAt_ge B k (k / B) (by omega)]
    have hLsucc : max P ((k + 1 + B - 1) / B) = k / B + 1 := by omega
    have hset : ((List.range (k / B + 1)).map (poolAt B k)).set (k / B)
        { capacity := B, used := 1 } = (List.range (k / B + 1)).map (poolAt B (k + 1)) := by
      apply set_range_map _ _ _ _ _ (Nat.lt_succ_self _)
      · intro j hj hne
        have hj2 : j < k / B := by omega
        have hjB : (j + 1) * B ≤ (k / B) * B := Nat.mul_le_mul_right B (by omega)
        rw [poolAt_lt B k j hB (by omega), poolAt_lt B (k + 1) j hB (by omega)]
      · unfold poolAt
        congr 1
        omega
    have hget : ((List.range (k / B + 1)).map (poolAt B k))[k / B]?
        = some (poolAt B k (k / B)) := by
      rw [List.getElem?_map, List.getElem?_range (Nat.lt_succ_self _)]
      rfl
    have hdesc : InnerPool.create_descriptor { capacity := B, used := 0 }
        = some { capacity := B, used := 1 } := by
      simp [InnerPool.create_descriptor, hB]
    unfold Allocator.allocate
    rw [hcur, hblock, hgrown]
    simp only [hget, Option.some_bind, poolAt_ge B k (k / B) (by omega), hdesc,
      Option.map_some', Option.some.injEq]
    rw [hset]
    unfold stateAfter poolsAfter
    rw [hLsucc]
  · -- the pool already exists
    have hidx : k / B < max P ((k + B - 1) / B) := by omega
    have hLsucc : max P ((k + 1 + B - 1) / B) = max P ((k + B - 1) / B) := by omega
    have hgrown : (stateAfter B P k).grown = { block_size := B, pools := poolsAfter B P k } := by
      unfold Allocator.grown
      rw [hcur, hblock, hpoolsEq, poolsAfter_length, if_neg (by omega)]
      rfl
    have hget : (poolsAfter B P k)[k / B]? = some (poolAt B k (k / B)) := by
      unfold poolsAfter
      rw [List.getElem?_map, List.getElem?_range hidx]
      rfl
    have hpool : poolAt B k (k / B) = { capacity := B, used := k % B } := by
      unfold poolAt
      congr 1
      omega
    have hdesc : InnerPool.create_descriptor { capacity := B, used := k % B }
        = some { capacity := B, used := k % B + 1 } := by
      simp [InnerPool.create_descriptor, hmodlt]
    have hset : (poolsAfter B P k).set (k / B) { capacity := B, used := k % B + 1 }
        = (List.range (max P ((k + B - 1) / B))).map (poolAt B (k + 1)) := by
      unfold poolsAfter
      apply set_range_map _ _ _ _ _ hidx
      · intro j hj hne
        rcases Nat.lt_or_ge j (k / B) with hj2 | hj2
        · have hjB : (j + 1) * B ≤ (k / B) * B := Nat.mul_le_mul_right B (by omega)
          rw [poolAt_lt B k j hB (by omega), poolAt_lt B (k + 1) j hB (by omega)]
        · have hj3 : k / B + 1 ≤ j := by omega
          have hjB : (k / B + 1) * B ≤ j * B := Nat.mul_le_mul_right B hj3
          have hexp : (k / B + 1) * B = (k / B) * B + B := Nat.succ_mul (k / B) B
          rw [poolAt_ge B k j (by omega), poolAt_ge B (k + 1) j (by omega)]
      · unfold poolAt
        congr 1
        omega
    unfold Allocator.allocate
    rw [hcur, hblock, hgrown]
    simp only [hget, Option.some_bind, hpool, hdesc, Option.map_some', Option.some.injEq]
    rw [hset]
    unfold stateAfter poolsAfter
    rw [hLsucc]

theorem allocIter_closed (B P : Nat) (hB : 0 < B) (k : Nat) :
    allocIter k (newSession (freshAllocator B P)) = some (stateAfter B P k) := by
  induction k with
  | zero =>
    unfold allocIter newSession stateAfter freshAllocator
    rw [poolsAfter_zero B P hB]
  | succ m ih =>
    unfold allocIter
    rw [ih]
    simp [allocate_closed B P m hB]

/-! ## Claim C1: allocator growth -/

/-- C1: starting from a newly created `LinearPoolAllocator` (zero pools)
with block size `B`, after `k` sequential session `allocate()` calls every
allocation has succeeded, the session counter is `k` and the number of
pools equals `⌈k / B⌉ = (k + B - 1) / B` — holding for every `k`, this
says pools are appended lazily, one at a time, exactly when the required
pool index does not yet exist — and the `k`-th (0-indexed) allocation is
served by pool `k / B`. -/
theorem C1_allocator_growth (B k : Nat) (hB : 0 < B) :
    ((allocIter k (newSession (freshAllocator B 0))).map
      (fun s => (s.allocator.pools.length, s.current_allocations))
        = some ((k + B - 1) / B, k)) ∧
    (((allocIter k (newSession (freshAllocator B 0))).bind Allocator.allocate).map
      (fun r => r.2) = some (k / B)) := by
  have h := allocIter_closed B 0 hB k
  constructor
  · rw [h]
    simp only [Option.map_some', Option.some.injEq]
    unfold stateAfter
    simp only [poolsAfter_length]
    rw [Nat.max_eq_right (Nat.zero_le _)]
  · rw [h, Option.some_bind, allocate_closed B 0 k hB]
    rfl

theorem C1_allocator_growth_witness :
    ((allocIter 5 (newSession (freshAllocator 2 0))).map
      (fun s => (s.allocator.pools.length, s.current_allocations)) = some (3, 5)) ∧
    (((allocIter 5 (newSession (freshAllocator 2 0))).bind Allocator.allocate).map
      (fun r => r.2) = some 2) :=
  C1_allocator_growth 2 5 (by decide)

/-! ## Claim C7: reset reclaims capacity without removing pools -/

/-- C7: `reset` resets every pool but removes none; a new session starts
with its counter at 0; and from a reset allocator with `P` pools of block
size `B`, any `N ≤ P * B` allocations all succeed with the pool count
staying exactly `P`. -/
theorem C7_reset_reuse (B P N : Nat) (a : LinearPoolAllocator) (hB : 0 < B)
    (hN : N ≤ P * B) (hblock : a.block_size = B) (hlen : a.pools.length = P)
    (hcap : ∀ p ∈ a.pools, p.capacity = B) :
    a.reset.pools.length = a.pools.length ∧
    (∀ p ∈ a.reset.pools, p.used = 0) ∧
    (newSession a.reset).current_allocations = 0 ∧
    (allocIter N (newSession a.reset)).map (fun s => s.allocator.pools.length)
      = some P := by
  have hreset : a.reset = freshAllocator B P := by
    cases a with
    | mk bs pools =>
      unfold LinearPoolAllocator.reset freshAllocator
      simp only at hblock hlen hcap
      simp only [LinearPoolAllocator.mk.injEq]
      refine ⟨hblock, ?_⟩
      rw [List.eq_replicate_iff]
      constructor
      · simp [hlen]
      · intro b hb
        obtain ⟨p, hp, rfl⟩ := List.mem_map.mp hb
        have hc := hcap p hp
        unfold InnerPool.reset_pool
        simp only [InnerPool.mk.injEq]
        exact ⟨hc, trivial⟩
  refine ⟨?_, ?_, rfl, ?_⟩
  · unfold LinearPoolAllocator.reset
    simp
  · intro p hp
    rw [hreset] at hp
    unfold freshAllocator at hp
    simp only at hp
    have := List.eq_of_mem_replicate hp
    rw [this]
  · rw [hreset, allocIter_closed B P hB N]
    simp only [Option.map_some', Option.some.injEq]
    unfold stateAfter
    simp only [poolsAfter_length]
    have hceil : (N + B - 1) / B ≤ P := by
      have h1 : (P + 1) * B = P * B + B := Nat.succ_mul P B
      have h2 : N + B - 1 < (P + 1) * B := by omega
      have h3 := (Nat.div_lt_iff_lt_mul hB).mpr h2
      omega
    rw [Nat.max_eq_left hceil]

theorem C7_reset_reuse_witness :
    exampleUsedAllocator.reset.pools.length = exampleUsedAllocator.pools.length ∧
    (∀ p ∈ exampleUsedAllocator.reset.pools, p.used = 0) ∧
    (newSession exampleUsedAllocator.reset).current_allocations = 0 ∧
    (allocIter 4 (newSession exampleUsedAllocator.reset)).map
      (fun s => s.allocator.pools.length) = some 2 :=
  C7_reset_reuse 2 2 4 exampleUsedAllocator (by decide) (by decide) rfl rfl (by decide)

/-! ## Claim C6: session end always resets and unlocks, exactly once -/

/-- C6: every way a session ends — the `sessionEnd` event covers both
normal scope exit and panic unwind, the only exits Rust has — runs the drop
glue: the lock is released, every pool of the underlying allocator is
reset (with no pool removed), and no second end of the same session can
follow (ending is irreversible and happens exactly once per session: the
next `sessionEnd` is only enabled after a fresh `acquire`). -/
theorem C6_session_end_resets (s s2 : SysState) (id : Nat) (unwind : Bool)
    (h : Step s (Ev.sessionEnd id unwind) s2) :
    s2.holder = none ∧
    s2.alloc.pools.length = s.alloc.pools.length ∧
    (∀ p ∈ s2.alloc.pools, p.used = 0) ∧
    ∀ id2 unwind2 s3, ¬ Step s2 (Ev.sessionEnd id2 unwind2) s3 := by
  cases h with
  | sessionEnd _ _ hheld =>
    refine ⟨rfl, ?_, ?_, ?_⟩
    · unfold LinearPoolAllocator.reset
      simp
    · intro p hp
      unfold LinearPoolAllocator.reset at hp
      simp only [List.mem_map] at hp
      obtain ⟨q, hq, rfl⟩ := hp
      rfl
    · intro id2 unwind2 s3 hstep
      cases hstep with
      | sessionEnd _ _ hheld2 => simp at hheld2

theorem C6_session_end_resets_witness :
    ({ holder := none, alloc := exampleEndStart.alloc.reset, counter := 0 } : SysState).holder = none ∧
    ({ holder := none, alloc := exampleEndStart.alloc.reset, counter := 0 } : SysState).alloc.pools.length = exampleEndStart.alloc.pools.length ∧
    ∀ p ∈ ({ holder := none, alloc := exampleEndStart.alloc.reset, counter := 0 } : SysState).alloc.pools, p.used = 0 := by
  have h := C6_session_end_resets exampleEndStart
    { holder := none, alloc := exampleEndStart.alloc.reset, counter := 0 } 0 false
    (Step.sessionEnd exampleEndStart 0 false rfl)
  exact ⟨h.1, h.2.1, h.2.2.1⟩

/-! ## Claim C8: mutual exclusion of sessions -/

theorem no_acquire_while_held {s : SysState} {evs : List Ev} {s2 : SysState}
    (htr : Trace s evs s2) :
    ∀ i, s.holder = some i → (∀ id b, Ev.sessionEnd id b ∉ evs) →
      ∀ j, Ev.acquire j ∉ evs := by
  induction htr with
  | nil s => intro i hi hend j; exact List.not_mem_nil _
  | cons hstep htr2 ih =>
    intro i hi hend j hmem
    cases hstep with
    | acquire id hfree =>
      rw [hi] at hfree
      exact Option.noConfusion hfree
    | allocStep id sa idx hheld halloc =>
      rcases List.mem_cons.mp hmem with heq | hmem2
      · exact Ev.noConfusion heq
      · exact ih id rfl (fun id2 b2 hm => hend id2 b2 (List.mem_cons_of_mem _ hm)) j hmem2
    | sessionEnd id b hheld =>
      exact hend id b (List.mem_cons_self _ _)

/-- C8: at most one session holds allocation rights at a time — the holder
is a single `Option` slot, `acquire` is enabled only while it is free, and
a freshly acquired session starts with counter 0 — so while a session `i`
is live, a well-formed trace that contains no session end contains no
second acquisition: the second acquirer blocks until the first session
ends. -/
theorem C8_mutual_exclusion (s : SysState) (evs : List Ev) (s2 : SysState)
    (i j : Nat) (s3 s4 : SysState)
    (htr : Trace s evs s2) (hheld : s.holder = some i)
    (hnoend : ∀ id b, Ev.sessionEnd id b ∉ evs)
    (hstep : Step s3 (Ev.acquire j) s4) :
    Ev.acquire j ∉ evs ∧ s3.holder = none ∧ s4.holder = some j ∧ s4.counter = 0 := by
  refine ⟨no_acquire_while_held htr i hheld hnoend j, ?_⟩
  cases hstep with
  | acquire _ hfree => exact ⟨hfree, rfl, rfl⟩

theorem C8_mutual_exclusion_witness :
    Ev.acquire 7 ∉ ([] : List Ev) ∧
    ({ holder := none, alloc := LinearPoolAllocator.new, counter := 0 } : SysState).holder = none ∧
    ({ holder := some 7, alloc := ({ holder := none, alloc := LinearPoolAllocator.new, counter := 0 } : SysState).alloc, counter := 0 } : SysState).holder = some 7 ∧
    ({ holder := some 7, alloc := ({ holder := none, alloc := LinearPoolAllocator.new, counter := 0 } : SysState).alloc, counter := 0 } : SysState).counter = 0 :=
  C8_mutual_exclusion exampleEndStart [] exampleEndStart 0 7
    { holder := none, alloc := LinearPoolAllocator.new, counter := 0 }
    { holder := some 7, alloc := LinearPoolAllocator.new, counter := 0 }
    (Trace.nil exampleEndStart) rfl (by intro id b hm; exact List.not_mem_nil _ hm)
    (Step.acquire { holder := none, alloc := LinearPoolAllocator.new, counter := 0 } 7 rfl)

/-! ## Claim C2: the recorded command sequence -/

/-- C2 (amended): for every `draw_indexed` call whose buffers are
Vulkan-created, whose two shader stages are present Vulkan handles and
whose vertex-input widths are all supported, the call records exactly the
sequence: begin render pass (full-resolution render area, clear values
transparent black and depth 1.0 / stencil 0), bind pipeline, set viewport
and scissor to the full surface resolution, bind the vertex buffer at
binding 0 offset 0, bind the index buffer with 32-bit index width, one
`cmd_draw_indexed` with `len` indices, 1 instance, first index 0, vertex
offset 0 and **first instance 1**, end render pass — then submits once. -/
theorem C2_command_sequence (r : Render) (state : PipelineState) (stride : Nat)
    (vi : List VertexInputData) (vb ib len vkv vkf : Nat)
    (attrs : List VertexInputAttributeDescription)
    (hv : state.vertex_shader = some (ShaderModule.vulkan vkv))
    (hf : state.fragment_shader = some (ShaderModule.vulkan vkf))
    (hvi : vertex_input vi = some attrs) :
    Render.draw_indexed r state stride vi (AnyBuffer.vulkan vb) (AnyBuffer.vulkan ib) len
      = DrawResult.ok
          (recorded_command_sequence r (built_pipeline vkv vkf stride attrs r.renderpass)
            vb ib len)
          draw_submission := by
  have hpipe : create_pipeline r.ctx state stride vi r.renderpass
      = Except.ok (built_pipeline vkv vkf stride attrs r.renderpass) := by
    unfold create_pipeline built_pipeline
    rw [hv, hf, hvi]
    rfl
  unfold Render.draw_indexed
  rw [show (AnyBuffer.vulkan vb).downcastVulkan = some vb from rfl]
  rw [show (AnyBuffer.vulkan ib).downcastVulkan = some ib from rfl]
  rw [hpipe]
  rfl

theorem C2_command_sequence_witness :
    Render.draw_indexed r0 state0 16 [] (AnyBuffer.vulkan 3) (AnyBuffer.vulkan 4) 9
      = DrawResult.ok
          (recorded_command_sequence r0 (built_pipeline 1 2 16 [] r0.renderpass) 3 4 9)
          draw_submission :=
  C2_command_sequence r0 state0 16 [] 3 4 9 1 2 [] rfl rfl rfl

/-- C2 counterexample: on a concrete draw the recorded sequence is not the
sequence the claim describes — the claimed sequence has all three draw
offsets zero, but the recorded draw call carries `first_instance = 1`. -/
theorem C2_counterexample :
    Render.draw_indexed r0 state0 16 [] (AnyBuffer.vulkan 3) (AnyBuffer.vulkan 4) 9
      = DrawResult.ok
          (recorded_command_sequence r0 (built_pipeline 1 2 16 [] r0.renderpass) 3 4 9)
          draw_submission ∧
    recorded_command_sequence r0 (built_pipeline 1 2 16 [] r0.renderpass) 3 4 9
      ≠ spec_command_sequence r0 (built_pipeline 1 2 16 [] r0.renderpass) 3 4 9 ∧
    Cmd.drawIndexed 9 1 0 0 1
      ∈ recorded_command_sequence r0 (built_pipeline 1 2 16 [] r0.renderpass) 3 4 9 ∧
    Cmd.drawIndexed 9 1 0 0 0
      ∉ recorded_command_sequence r0 (built_pipeline 1 2 16 [] r0.renderpass) 3 4 9 := by
  refine ⟨rfl, by decide, by decide, by decide⟩

/-! ## Claim C3: missing shader stage fails before recording -/

/-- C3: if either shader stage is absent from the pipeline state,
`draw_indexed` fails fatally (an `expect` panic, caller misuse) before any
command is recorded: the outcome is a panic, no command sequence exists and
no GPU submission occurs. -/
theorem C3_missing_shader_fails (r : Render) (state : PipelineState) (stride : Nat)
    (vi : List VertexInputData) (vb ib : AnyBuffer) (len : Nat)
    (h : state.vertex_shader = none ∨ state.fragment_shader = none) :
    (Render.draw_indexed r state stride vi vb ib len).isPanicked = true ∧
    (Render.draw_indexed r state stride vi vb ib len).recordedCommands = none ∧
    (Render.draw_indexed r state stride vi vb ib len).submissions = [] := by
  cases vb with
  | other t =>
    simp [Render.draw_indexed, AnyBuffer.downcastVulkan, DrawResult.isPanicked,
      DrawResult.recordedCommands, DrawResult.submissions]
  | vulkan b =>
    cases ib with
    | other t2 =>
      simp [Render.draw_indexed, AnyBuffer.downcastVulkan, DrawResult.isPanicked,
        DrawResult.recordedCommands, DrawResult.submissions]
    | vulkan b2 =>
      have hpipe : ∃ msg, create_pipeline r.ctx state stride vi r.renderpass
          = Except.error msg := by
        rcases h with hv | hf
        · exact ⟨"vertex", by unfold create_pipeline; rw [hv]⟩
        · cases hvs : state.vertex_shader with
          | none => exact ⟨"vertex", by unfold create_pipeline; rw [hvs]⟩
          | some vs =>
            cases vs with
            | vulkan m => exact ⟨"vertex", by unfold create_pipeline; rw [hvs, hf]; rfl⟩
            | other t3 => exact ⟨"downcast", by unfold create_pipeline; rw [hvs]; rfl⟩
      obtain ⟨msg, hmsg⟩ := hpipe
      simp [Render.draw_indexed, AnyBuffer.downcastVulkan, hmsg, DrawResult.isPanicked,
        DrawResult.recordedCommands, DrawResult.submissions]

theorem C3_missing_shader_fails_witness :
    (Render.draw_indexed r0 state_no_fragment 16 [] (AnyBuffer.vulkan 3)
      (AnyBuffer.vulkan 4) 9).isPanicked = true ∧
    (Render.draw_indexed r0 state_no_fragment 16 [] (AnyBuffer.vulkan 3)
      (AnyBuffer.vulkan 4) 9).recordedCommands = none ∧
    (Render.draw_indexed r0 state_no_fragment 16 [] (AnyBuffer.vulkan 3)
      (AnyBuffer.vulkan 4) 9).submissions = [] :=
  C3_missing_shader_fails r0 state_no_fragment 16 [] (AnyBuffer.vulkan 3)
    (AnyBuffer.vulkan 4) 9 (Or.inr rfl)

/-! ## Claim C4: backend-mismatched buffers -/

/-- C4 (amended): when either buffer was created by a different backend,
`draw_indexed` fails fatally — the `expect("backend")` panic, which
terminates instead of returning — before any recording or submission; the
failure is *not* surfaced to the caller as a typed error (the Rust method
returns `()` and has no error variant at all). -/
theorem C4_backend_mismatch_panics (r : Render) (state : PipelineState) (stride : Nat)
    (vi : List VertexInputData) (vb ib : AnyBuffer) (len : Nat)
    (h : vb.downcastVulkan = none ∨ ib.downcastVulkan = none) :
    Render.draw_indexed r state stride vi vb ib len = DrawResult.panicked "backend" ∧
    (Render.draw_indexed r state stride vi vb ib len).isTypedError = false ∧
    (Render.draw_indexed r state stride vi vb ib len).recordedCommands = none ∧
    (Render.draw_indexed r state stride vi vb ib len).submissions = [] := by
  have hmain : Render.draw_indexed r state stride vi vb ib len
      = DrawResult.panicked "backend" := by
    cases vb with
    | other t => rfl
    | vulkan b =>
      rcases h with hv | hi
      · exact absurd hv (by simp [AnyBuffer.downcastVulkan])
      · cases ib with
        | other t2 => rfl
        | vulkan b2 => exact absurd hi (by simp [AnyBuffer.downcastVulkan])
  rw [hmain]
  exact ⟨rfl, rfl, rfl, rfl⟩

theorem C4_backend_mismatch_panics_witness :
    Render.draw_indexed r0 state0 16 [] (AnyBuffer.other 5) (AnyBuffer.vulkan 4) 9
      = DrawResult.panicked "backend" ∧
    (Render.draw_indexed r0 state0 16 [] (AnyBuffer.other 5) (AnyBuffer.vulkan 4) 9).isTypedError
      = false ∧
    (Render.draw_indexed r0 state0 16 [] (AnyBuffer.other 5) (AnyBuffer.vulkan 4) 9).recordedCommands
      = none ∧
    (Render.draw_indexed r0 state0 16 [] (AnyBuffer.other 5) (AnyBuffer.vulkan 4) 9).submissions
      = [] :=
  C4_backend_mismatch_panics r0 state0 16 [] (AnyBuffer.other 5) (AnyBuffer.vulkan 4) 9
    (Or.inl rfl)

/-- C4 counterexample: on a concrete mismatched vertex buffer the outcome is
the fatal panic, which is not a typed failure — refuting "surfaced to the
caller as a typed failure". -/
theorem C4_counterexample :
    Render.draw_indexed r0 state0 16 [] (AnyBuffer.other 5) (AnyBuffer.vulkan 4) 9
      = DrawResult.panicked "backend" ∧
    (Render.draw_indexed r0 state0 16 [] (AnyBuffer.other 5) (AnyBuffer.vulkan 4) 9).isTypedError
      = false ∧
    DrawResult.panicked "backend" ≠ DrawResult.typedError RenderError.backendMismatch :=
  ⟨rfl, rfl, by decide⟩

/-! ## Claim C5: vertex format mapping -/

/-- C5: widths 1–4 map to the single/2/3/4-component 32-bit float formats;
any other width (0 or ≥ 5) hits `unreachable!()`; and `vertex_input`
carries each entry's location, binding and byte offset through
unchanged. -/
theorem C5_vertex_format_mapping :
    (vertex_format (VertexType.F32 1) = some VkFormat.R32_SFLOAT ∧
     vertex_format (VertexType.F32 2) = some VkFormat.R32G32_SFLOAT ∧
     vertex_format (VertexType.F32 3) = some VkFormat.R32G32B32_SFLOAT ∧
     vertex_format (VertexType.F32 4) = some VkFormat.R32G32B32A32_SFLOAT) ∧
    (∀ n, n = 0 ∨ 5 ≤ n → vertex_format (VertexType.F32 n) = none) ∧
    (∀ vi out, vertex_input vi = some out →
      out.map (fun d => (d.location, d.binding, d.offset))
        = vi.map (fun d => (d.location, d.binding, d.offset))) := by
  refine ⟨⟨rfl, rfl, rfl, rfl⟩, ?_, ?_⟩
  · intro n hn
    rcases hn with h0 | h5
    · subst h0
      rfl
    · obtain ⟨m, rfl⟩ : ∃ m, n = m + 5 := ⟨n - 5, by omega⟩
      rfl
  · intro vi out h
    induction vi generalizing out with
    | nil =>
      cases h
      rfl
    | cons a rest ih =>
      unfold vertex_input at h
      cases hf : vertex_format a.vertex_type with
      | none =>
        rw [hf] at h
        exact Option.noConfusion h
      | some f =>
        rw [hf] at h
        cases hrest : vertex_input rest with
        | none =>
          rw [hrest] at h
          exact Option.noConfusion h
        | some outr =>
          rw [hrest] at h
          simp only [Option.map_some', Option.some.injEq] at h
          subst h
          simp only [List.map_cons]
          rw [ih outr hrest]

theorem C5_vertex_format_mapping_witness :
    vertex_format (VertexType.F32 0) = none ∧
    vertex_format (VertexType.F32 7) = none ∧
    exampleVertexAttributes.map (fun d => (d.location, d.binding, d.offset))
      = exampleVertexInputs.map (fun d => (d.location, d.binding, d.offset)) :=
  ⟨C5_vertex_format_mapping.2.1 0 (Or.inl rfl),
   C5_vertex_format_mapping.2.1 7 (Or.inr (by decide)),
   C5_vertex_format_mapping.2.2 exampleVertexInputs exampleVertexAttributes rfl⟩

/-! ## Claim C9: render pass structure -/

/-- C9 (amended): the render pass always has exactly two attachments — a
color attachment with the fixed format `R8G8B8A8_UNORM` (not derived from
the presentation format or the target images) and a depth attachment with
the fixed format `D16_UNORM` — one subpass referencing both, and a single
dependency from `SUBPASS_EXTERNAL` on the color-attachment-output stage
granting read+write color access to the same stage; it is one constant,
independent of the context and the resolved image list. -/
theorem C9_renderpass_structure (ctx : VkContext) (images : List Image) :
    (create_renderpass ctx images).attachments.map AttachmentDescription.format
      = [VkFormat.R8G8B8A8_UNORM, VkFormat.D16_UNORM] ∧
    (create_renderpass ctx images).subpasses
      = [ { color_attachments := [{ attachment := 0, layout := ImageLayout.COLOR_ATTACHMENT_OPTIMAL }],
            depth_stencil_attachment :=
              some { attachment := 1, layout := ImageLayout.DEPTH_STENCIL_ATTACHMENT_OPTIMAL } } ] ∧
    (create_renderpass ctx images).dependencies
      = [ { src_subpass := SubpassRef.external,
            dst_subpass := SubpassRef.index 0,
            src_stage_mask := [PipelineStageFlag.COLOR_ATTACHMENT_OUTPUT],
            dst_stage_mask := [PipelineStageFlag.COLOR_ATTACHMENT_OUTPUT],
            src_access_mask := [],
            dst_access_mask := [AccessFlag.COLOR_ATTACHMENT_READ,
                                AccessFlag.COLOR_ATTACHMENT_WRITE] } ] ∧
    ∀ ctx2 images2, create_renderpass ctx images = create_renderpass ctx2 images2 :=
  ⟨rfl, rfl, rfl, fun _ _ => rfl⟩

/-- C9 counterexample: with a presentation format of `B8G8R8A8_UNORM`, the
render pass's color attachment format is still `R8G8B8A8_UNORM` — it does
not match the presentation format, refuting "color attachment whose format
matches the presentation format". -/
theorem C9_counterexample :
    (create_renderpass ctx0 images0).attachments.map AttachmentDescription.format
      = [VkFormat.R8G8B8A8_UNORM, VkFormat.D16_UNORM] ∧
    ctx0.surface_format = VkFormat.B8G8R8A8_UNORM ∧
    VkFormat.R8G8B8A8_UNORM ≠ VkFormat.B8G8R8A8_UNORM :=
  ⟨rfl, rfl, by decide⟩

/-! ## Claim C10: `copy_to_device_local` is infallible at its interface -/

/-- C10: the `copy_to_device_local` interface returns a `DeviceLocal`
buffer directly — every call produces a buffer value, so a backend failure
on this path cannot be surfaced as a typed error — while the `from_slice`
interface returns a result type that does contain a non-`ok` (typed
`BufferError`) value. -/
theorem C10_copy_to_device_local_infallible :
    (∀ (api : BufferApiImpl Nat) (b : ImplBuffer Nat HostVisible),
      ∃ d : ImplBuffer Nat DeviceLocal, api.copy_to_device_local b = d) ∧
    (∃ r : Except BufferError (ImplBuffer Nat HostVisible),
      ∀ b : ImplBuffer Nat HostVisible, r ≠ Except.ok b) :=
  ⟨fun api b => ⟨api.copy_to_device_local b, rfl⟩,
   ⟨Except.error BufferError.allocation, fun _ h => Except.noConfusion h⟩⟩

end Tephra
